import Mathlib

/-!
Verification development for the heimdall-monitoring repository.

The Python sources (heimdall/alerts.py, heimdall/monitor.py,
heimdall/telegram.py) are embedded shallowly below:

* Timestamps are modelled as integer seconds: the code stores every
  timestamp as a string formatted to one-second granularity and parses it
  back, so second-granularity integers are exact.
* Percentages and the cooldown are modelled as exact rationals.  The code
  uses Python floats; none of the properties proved here depends on
  rounding at the 53-bit mantissa scale.
* `AlertManager.get_alert_id` returns the MD5 hex digest of the string
  `nickname ++ ":" ++ hostname ++ ":" ++ alert_type`.  MD5 is a fixed
  function that is injective on the short ASCII strings arising here, so
  the digest is modelled by the digested string itself: two fingerprints
  are equal exactly when the underlying alert strings are equal.
* Filesystem, SMTP and HTTP effects are external collaborators; whether a
  delivery attempt succeeds is passed in as an explicit boolean.
-/

namespace Heimdall

/-! ## String helpers (Python `str.lower`, `str.split`, `str.rstrip`) -/

def lowerStr (s : String) : String :=
  String.mk (s.toList.map Char.toLower)

def isWsChar (c : Char) : Bool :=
  c = ' ' || c = '\t' || c = '\n' || c = '\r'

/-- Python `str.split()` with no argument: split on runs of whitespace,
discarding empty fields. -/
def splitWsAux : List Char → List Char → List (List Char)
  | [], [] => []
  | [], acc => [acc.reverse]
  | c :: rest, acc =>
    if isWsChar c then
      if acc.isEmpty then splitWsAux rest []
      else acc.reverse :: splitWsAux rest []
    else splitWsAux rest (c :: acc)

def splitWsStr (s : String) : List String :=
  (splitWsAux s.toList []).map String.mk

/-- Python `str.rstrip("%")`: drop every trailing percent sign. -/
def rstripPercent (s : String) : String :=
  String.mk ((s.toList.reverse.dropWhile (fun c => c = '%')).reverse)

def startsWithL : List Char → List Char → Bool
  | [], _ => true
  | _ :: _, [] => false
  | p :: ps, c :: cs => p = c && startsWithL ps cs

/-- Substring test, the semantics of Python `pat in s` on strings. -/
def containsSub (pat : List Char) : List Char → Bool
  | [] => startsWithL pat []
  | c :: cs => startsWithL pat (c :: cs) || containsSub pat cs

def digitsToNat (l : List Char) : Nat :=
  l.foldl (fun acc c => acc * 10 + (c.toNat - '0'.toNat)) 0

/-- Parse of a nonempty all-digit string. -/
def parseNatDigits (l : List Char) : Option Nat :=
  if !l.isEmpty && l.all Char.isDigit then some (digitsToNat l) else none

/-- Model of Python `float` restricted to the decimal literals produced by
`df`, `top` and `free` output: optional sign, digits, at most one dot.
The value is returned as numerator and power-of-ten denominator. -/
def parseQnnParts (l : List Char) : Option (Nat × Nat) :=
  let intPart := l.takeWhile (fun c => c ≠ '.')
  let rest := l.dropWhile (fun c => c ≠ '.')
  match rest with
  | [] => (parseNatDigits intPart).map (fun n => (n, 1))
  | _ :: frac =>
    if (!intPart.isEmpty || !frac.isEmpty)
        && intPart.all Char.isDigit && frac.all Char.isDigit then
      some (digitsToNat intPart * 10 ^ frac.length + digitsToNat frac, 10 ^ frac.length)
    else none

def parseQ? (l : List Char) : Option ℚ :=
  match l with
  | '-' :: rest => (parseQnnParts rest).map (fun p => mkRat (-(p.1 : Int)) p.2)
  | _ => (parseQnnParts l).map (fun p => mkRat (p.1 : Int) p.2)

/-- Model of Python `int` on the token strings of `free` output. -/
def parseIntOpt (l : List Char) : Option Int :=
  match l with
  | '-' :: rest => (parseNatDigits rest).map (fun n => -(n : Int))
  | _ => (parseNatDigits l).map (fun n => (n : Int))

/-- Exact value of the division `a / b` of two integers as a rational
(the value Python float division returns, up to rounding that none of the
quantities here reaches). -/
def intDivQ (a b : Int) : ℚ :=
  if b < 0 then mkRat (-a) b.natAbs else mkRat a b.natAbs

/-! ## Data model: the alert ledger (`alerts.py`) -/

/-- One record of `alert_status.json`; timestamps in integer seconds. -/
structure AlertRecord where
  server : String
  hostname : String
  type' : String
  message : String
  first_detected : Int
  last_detected : Int
  last_notified : Int
  resolved_time : Option Int
deriving DecidableEq

/-- The two partitions of the ledger, as association lists keyed by
fingerprint (Python dicts keyed by the MD5 hex digest). -/
structure AlertStatus where
  active_alerts : List (String × AlertRecord)
  resolved_alerts : List (String × AlertRecord)
deriving DecidableEq

/-- The slice of `config.json` that `AlertManager` reads. -/
structure Config where
  alert_cooldown : ℚ
  email_enabled : Bool
  telegram_configured : Bool
deriving DecidableEq

/-- The `alert_data` dict queued by `send_alert` during a session. -/
structure SessionAlert where
  server : String
  hostname : String
  message : String
  type' : String
  alert_id : String
  is_new : Bool
  is_recurring : Bool
deriving DecidableEq

/-- The `resolution_data` dict queued by `check_alert_resolution`. -/
structure SessionResolution where
  server : String
  hostname : String
  metric : String
  current_value : ℚ
  threshold : ℚ
  alert_id : String
deriving DecidableEq

/-- Mutable state of an `AlertManager` instance. -/
structure AMState where
  alert_status : AlertStatus
  session_active : Bool
  session_new_alerts : List SessionAlert
  session_recurring_alerts : List SessionAlert
  session_resolved_alerts : List SessionResolution
deriving DecidableEq

/-! ## Association-list operations (Python dict get, set, del) -/

def alLookup (k : String) : List (String × AlertRecord) → Option AlertRecord
  | [] => none
  | (k', v) :: t => if k' = k then some v else alLookup k t

/-- Dict assignment: replace the binding in place, or append a new one. -/
def alSet (k : String) (v : AlertRecord) : List (String × AlertRecord) → List (String × AlertRecord)
  | [] => [(k, v)]
  | (k', v') :: t => if k' = k then (k, v) :: t else (k', v') :: alSet k v t

/-- Dict deletion of key `k`. -/
def alErase (k : String) (l : List (String × AlertRecord)) : List (String × AlertRecord) :=
  l.filter (fun p => p.1 ≠ k)

/-- `AlertManager.get_alert_id` modulo the MD5 digest (see the header). -/
def get_alert_id (nickname hostname alert_type : String) : String :=
  nickname ++ ":" ++ hostname ++ ":" ++ alert_type

/-- `AlertManager.reset_all_alert_cooldowns`. -/
def reset_all_alert_cooldowns (l : List (String × AlertRecord)) (ts : Int) :
    List (String × AlertRecord) :=
  l.map (fun p => (p.1, { p.2 with last_notified := ts }))

/-! ## `AlertManager.send_alert` -/

/-- Derivation `alert_type = message.split()[0].lower()` used when no
explicit alert type is passed.  (On an empty message the Python code would
raise IndexError; the model returns the empty string, a case no caller of
the repository exercises.) -/
def firstWordLower (message : String) : String :=
  match splitWsStr message with
  | [] => ""
  | w :: _ => lowerStr w

structure SendResult where
  state : AMState
  should_send : Bool
  is_new : Bool
  is_recurring : Bool
  email_sent : Bool
  telegram_sent : Bool
  returned : Bool
deriving DecidableEq

/-- The ledger mutation performed by `send_alert` before any notification
logic: record a new alert (pulling it out of `resolved_alerts` on
recurrence), or update `last_detected` and apply the cooldown test on an
existing one. -/
def ledgerUpdate (cfg : Config) (status : AlertStatus) (alert_id : String)
    (nickname hostname message atype : String) (now : Int) : AlertStatus × Bool :=
  let is_new := (alLookup alert_id status.active_alerts).isNone
  let is_rec := (alLookup alert_id status.resolved_alerts).isSome
  if is_new then
    let rec0 : AlertRecord :=
      { server := nickname, hostname := hostname, type' := atype, message := message,
        first_detected := now, last_detected := now, last_notified := now,
        resolved_time := none }
    ({ active_alerts := alSet alert_id rec0 status.active_alerts,
       resolved_alerts :=
         if is_rec then alErase alert_id status.resolved_alerts
         else status.resolved_alerts }, true)
  else
    match alLookup alert_id status.active_alerts with
    | none => (status, false)
    | some r =>
      let elapsedOk : Bool :=
        decide (mkRat (now - r.last_notified) 3600 ≥ cfg.alert_cooldown)
      let r1 : AlertRecord :=
        { r with last_detected := now,
                 last_notified := if elapsedOk then now else r.last_notified }
      ({ status with active_alerts := alSet alert_id r1 status.active_alerts }, elapsedOk)

/-- The `if not alert_type: alert_type = message.split()[0].lower()`
defaulting at the top of `send_alert`. -/
def derivedAlertType (alert_type : Option String) (message : String) : String :=
  match alert_type with
  | some a => if a = "" then firstWordLower message else a
  | none => firstWordLower message

/-- `AlertManager.send_alert(nickname, hostname, message, alert_type)` at
time `now`.  `emailOk` and `telegramOk` say whether a delivery attempt on
the given channel would succeed (SMTP or HTTP outcome); a channel is only
attempted when it is enabled in the config.  The rate-limit test
`hours_since_last_notification >= alert_cooldown`, with
`hours = (now - last_notified).total_seconds() / 3600`, is modelled by the
exact rational `mkRat (now - last_notified) 3600`. -/
def send_alert (cfg : Config) (st : AMState) (nickname hostname message : String)
    (alert_type : Option String) (now : Int) (emailOk telegramOk : Bool) : SendResult :=
  let atype := derivedAlertType alert_type message
  let alert_id := get_alert_id nickname hostname atype
  let is_new := (alLookup alert_id st.alert_status.active_alerts).isNone
  let is_rec := (alLookup alert_id st.alert_status.resolved_alerts).isSome
  let step1 := ledgerUpdate cfg st.alert_status alert_id nickname hostname message atype now
  let status1 := step1.1
  let should := step1.2
  if st.session_active && should then
    let ad : SessionAlert :=
      { server := nickname, hostname := hostname, message := message, type' := atype,
        alert_id := alert_id, is_new := is_new, is_recurring := is_rec }
    { state :=
        { st with
          alert_status := status1,
          session_new_alerts :=
            if is_new then st.session_new_alerts ++ [ad] else st.session_new_alerts,
          session_recurring_alerts :=
            if is_new then st.session_recurring_alerts
            else st.session_recurring_alerts ++ [ad] },
      should_send := should, is_new := is_new, is_recurring := is_rec,
      email_sent := false, telegram_sent := false, returned := true }
  else
    let email_sent := should && !st.session_active && cfg.email_enabled && emailOk
    let telegram_sent := should && !st.session_active && cfg.telegram_configured && telegramOk
    let status2 :=
      if email_sent || telegram_sent then
        { status1 with
          active_alerts := reset_all_alert_cooldowns status1.active_alerts now }
      else status1
    { state := { st with alert_status := status2 },
      should_send := should, is_new := is_new, is_recurring := is_rec,
      email_sent := email_sent, telegram_sent := telegram_sent,
      returned := email_sent || telegram_sent || st.session_active }

/-! ## `AlertManager.check_alert_resolution` -/

structure ResolveResult where
  state : AMState
  moved : Bool
  email_sent : Bool
  telegram_sent : Bool
  returned : Bool
deriving DecidableEq

/-- `AlertManager.check_alert_resolution(nickname, hostname, metric,
current_value, threshold)` at time `now`. -/
def check_alert_resolution (cfg : Config) (st : AMState) (nickname hostname metric : String)
    (current_value threshold : ℚ) (now : Int) (emailOk telegramOk : Bool) : ResolveResult :=
  let alert_id := get_alert_id nickname hostname (lowerStr metric)
  match alLookup alert_id st.alert_status.active_alerts with
  | some alert =>
    if current_value < threshold then
      let alert1 := { alert with resolved_time := some now }
      let act := alErase alert_id st.alert_status.active_alerts
      let res := alSet alert_id alert1 st.alert_status.resolved_alerts
      let status1 : AlertStatus := { active_alerts := act, resolved_alerts := res }
      if st.session_active then
        let rd : SessionResolution :=
          { server := nickname, hostname := hostname, metric := metric,
            current_value := current_value, threshold := threshold, alert_id := alert_id }
        { state :=
            { st with
              alert_status := status1,
              session_resolved_alerts := st.session_resolved_alerts ++ [rd] },
          moved := true, email_sent := false, telegram_sent := false, returned := true }
      else
        let email_sent := cfg.email_enabled && emailOk
        let telegram_sent := cfg.telegram_configured && telegramOk
        let status2 :=
          if (email_sent || telegram_sent) && !act.isEmpty then
            { status1 with active_alerts := reset_all_alert_cooldowns act now }
          else status1
        { state := { st with alert_status := status2 },
          moved := true, email_sent := email_sent, telegram_sent := telegram_sent,
          returned := email_sent || telegram_sent }
    else
      { state := st, moved := false, email_sent := false, telegram_sent := false,
        returned := false }
  | none =>
      { state := st, moved := false, email_sent := false, telegram_sent := false,
        returned := false }

/-! ## Session batcher (`start_session` / `end_session`) -/

/-- `AlertManager.start_session`. -/
def start_session (st : AMState) : AMState :=
  { st with
    session_active := true,
    session_new_alerts := [],
    session_recurring_alerts := [],
    session_resolved_alerts := [] }

inductive Channel where
  | email
  | telegram
deriving DecidableEq

/-- Observable output of `end_session`: the payloads handed to the two
delivery channels, and the global cooldown reset. -/
inductive BatchEvent where
  | alertSummary (c : Channel)
  | resolutionSummary (c : Channel)
  | resetAll (ts : Int)
deriving DecidableEq

def countEv (x : BatchEvent) : List BatchEvent → Nat
  | [] => 0
  | e :: t => (if e = x then 1 else 0) + countEv x t

/-- One payload per enabled channel, as `_send_batch_alerts` and
`_send_batch_resolutions` each produce (email body if email is enabled,
one broadcast message if the Telegram bot is configured). -/
def channelEvents (cfg : Config) (mk : Channel → BatchEvent) : List BatchEvent :=
  (if cfg.email_enabled then [mk Channel.email] else []) ++
  (if cfg.telegram_configured then [mk Channel.telegram] else [])

/-- Return value of `_send_batch_alerts`: true when at least one channel
was attempted and succeeded. -/
def batchAlertsSent (cfg : Config) (st : AMState) (emailOkA telegramOkA : Bool) : Bool :=
  (!st.session_new_alerts.isEmpty || !st.session_recurring_alerts.isEmpty) &&
  ((cfg.email_enabled && emailOkA) || (cfg.telegram_configured && telegramOkA))

/-- Return value of `_send_batch_resolutions`. -/
def batchResolutionsSent (cfg : Config) (st : AMState) (emailOkR telegramOkR : Bool) : Bool :=
  !st.session_resolved_alerts.isEmpty &&
  ((cfg.email_enabled && emailOkR) || (cfg.telegram_configured && telegramOkR))

/-- `AlertManager.end_session` at time `now`, with the two batch sends
given independent delivery outcomes per channel.  Returns the new state
and the list of observable dispatch events. -/
def end_session (cfg : Config) (st : AMState) (now : Int)
    (emailOkA telegramOkA emailOkR telegramOkR : Bool) : AMState × List BatchEvent :=
  if !st.session_active then (st, [])
  else
    let alertsNE := !st.session_new_alerts.isEmpty || !st.session_recurring_alerts.isEmpty
    let resolvedNE := !st.session_resolved_alerts.isEmpty
    let alertEvents :=
      if alertsNE then channelEvents cfg BatchEvent.alertSummary else []
    let resolutionEvents :=
      if resolvedNE then channelEvents cfg BatchEvent.resolutionSummary else []
    let sent := batchAlertsSent cfg st emailOkA telegramOkA ||
                batchResolutionsSent cfg st emailOkR telegramOkR
    let status1 :=
      if sent then
        { st.alert_status with
          active_alerts := reset_all_alert_cooldowns st.alert_status.active_alerts now }
      else st.alert_status
    let st1 : AMState :=
      { alert_status := status1, session_active := false,
        session_new_alerts := [], session_recurring_alerts := [],
        session_resolved_alerts := [] }
    (st1, alertEvents ++ resolutionEvents ++ (if sent then [BatchEvent.resetAll now] else []))

/-! ## Operation sequences over the ledger -/

/-- The calls a run of the program performs against one `AlertManager`. -/
inductive Op where
  | record (nickname hostname message : String) (alert_type : Option String)
      (now : Int) (emailOk telegramOk : Bool)
  | resolve (nickname hostname metric : String) (current_value threshold : ℚ)
      (now : Int) (emailOk telegramOk : Bool)
  | sessionStart
  | sessionEnd (now : Int) (emailOkA telegramOkA emailOkR telegramOkR : Bool)

def step (cfg : Config) (st : AMState) : Op → AMState
  | Op.record n h m a now e t => (send_alert cfg st n h m a now e t).state
  | Op.resolve n h m cv thr now e t => (check_alert_resolution cfg st n h m cv thr now e t).state
  | Op.sessionStart => start_session st
  | Op.sessionEnd now eA tA eR tR => (end_session cfg st now eA tA eR tR).1

def runOps (cfg : Config) (st : AMState) (ops : List Op) : AMState :=
  ops.foldl (step cfg) st

/-- The operations issued by `ServerMonitor.check_server` (hence by
`check_all_servers`): only `send_alert` and `check_alert_resolution`, never
the session calls. -/
def opFromSweep : Op → Bool
  | Op.record _ _ _ _ _ _ _ => true
  | Op.resolve _ _ _ _ _ _ _ _ => true
  | _ => false

/-! ## Metric sampler (`ServerMonitor.check_server`, monitor.py) -/

structure Thresholds where
  cpu : ℚ
  memory : ℚ
  disk : ℚ
deriving DecidableEq

/-- The remote pipeline pipes `df -h` through
`grep -v tmpfs | grep -v devtmpfs | grep -v snapd | grep -v Filesystem`:
a line survives only if it contains none of those substrings. -/
def grepKeepLine (line : String) : Bool :=
  !containsSub "tmpfs".toList line.toList &&
  !containsSub "devtmpfs".toList line.toList &&
  !containsSub "snapd".toList line.toList &&
  !containsSub "Filesystem".toList line.toList

structure DiskFields where
  filesystem : String
  mount : String
  usage_str : String
deriving DecidableEq

/-- Field extraction of the per-line disk code: `parts = disk_line.split()`;
needs at least 5 fields; `filesystem = parts[0]`,
`mount_point = parts[5] if len(parts) >= 6 else parts[0]`,
`usage_str = parts[4].rstrip("%")`.  Blank lines have no fields and are
skipped by the `continue`. -/
def diskFields (line : String) : Option DiskFields :=
  let parts := splitWsStr line
  if 5 ≤ parts.length then
    some { filesystem := parts.headD "",
           mount := if 6 ≤ parts.length then parts.getD 5 "" else parts.headD "",
           usage_str := rstripPercent (parts.getD 4 "") }
  else none

inductive DiskLineResult where
  | ignored
  | skipped (mount : String)
  | parseFail (mount : String)
  | critical (mount : String) (usage : ℚ)
  | healthy (mount : String) (usage : ℚ)
deriving DecidableEq

/-- Processing of one kept `df` line inside the loop of `check_server`. -/
def processDiskLine (disk_threshold : ℚ) (line : String) : DiskLineResult :=
  match diskFields line with
  | none => DiskLineResult.ignored
  | some f =>
    let shouldSkip :=
      containsSub "squashfs".toList (lowerStr f.filesystem).toList ||
      containsSub "/snap/".toList f.mount.toList ||
      startsWithL "/snap".toList f.mount.toList
    if shouldSkip then DiskLineResult.skipped f.mount
    else
      match parseQ? f.usage_str.toList with
      | none => DiskLineResult.parseFail f.mount
      | some u =>
        if u ≥ disk_threshold then DiskLineResult.critical f.mount u
        else DiskLineResult.healthy f.mount u

inductive DiskAction where
  | alert (mount : String) (usage : ℚ)
  | resolution (mount : String) (usage : ℚ)
deriving DecidableEq

/-- What one raw `df` line contributes to the check: nothing if the grep
filter drops it, nothing if the Python loop skips or cannot parse it, a
resolution check if healthy, a collected critical-disk alert if breaching. -/
def diskLineContribution (thr : ℚ) (line : String) : List DiskAction :=
  if grepKeepLine line then
    match processDiskLine thr line with
    | DiskLineResult.critical m u => [DiskAction.alert m u]
    | DiskLineResult.healthy m u => [DiskAction.resolution m u]
    | _ => []
  else []

/-- The whole disk section: resolutions fire inline during the loop, the
alerts for collected critical disks are sent after it. -/
def diskSectionActions (thr : ℚ) (lines : List String) : List DiskAction :=
  let results := (lines.filter grepKeepLine).map (processDiskLine thr)
  (results.filterMap (fun r =>
    match r with
    | DiskLineResult.healthy m u => some (DiskAction.resolution m u)
    | _ => none)) ++
  (results.filterMap (fun r =>
    match r with
    | DiskLineResult.critical m u => some (DiskAction.alert m u)
    | _ => none))

/-- Observable per-host events of `check_server` (the alert and resolution
calls it issues, the parse-failure logs, and the generic alert raised by
the surrounding exception handler). -/
inductive HostEvent where
  | cpuParseFail
  | cpuAlert (v : ℚ)
  | cpuResolutionCheck (v : ℚ)
  | memParseFail
  | memAlert (v : ℚ)
  | memResolutionCheck (v : ℚ)
  | diskAct (a : DiskAction)
  | serviceAlert (name : String)
  | serviceResolutionCheck (name : String)
  | genericErrorAlert
deriving DecidableEq

/-- CPU step: empty output is logged and skipped; non-empty output is fed
to `float`, whose ValueError escapes to the host-level handler (second
component true means the exception aborts the host check). -/
def cpuStep (thr : Thresholds) (cpuOut : String) : List HostEvent × Bool :=
  if cpuOut = "" then ([HostEvent.cpuParseFail], false)
  else
    match parseQ? cpuOut.toList with
    | none => ([HostEvent.genericErrorAlert], true)
    | some v =>
      if v ≥ thr.cpu then ([HostEvent.cpuAlert v], false)
      else ([HostEvent.cpuResolutionCheck v], false)

/-- Memory step: empty output logged and skipped; otherwise
`int(parts[1])`, `int(parts[2])` and the division can each raise, which
again escapes to the host-level handler. -/
def memStep (thr : Thresholds) (memOut : String) : List HostEvent × Bool :=
  if memOut = "" then ([HostEvent.memParseFail], false)
  else
    let parts := splitWsStr memOut
    if parts.length < 3 then ([HostEvent.genericErrorAlert], true)
    else
      match parseIntOpt (parts.getD 1 "").toList, parseIntOpt (parts.getD 2 "").toList with
      | some total, some used =>
        if total = 0 then ([HostEvent.genericErrorAlert], true)
        else
          let usage : ℚ := intDivQ (used * 100) total
          if usage ≥ thr.memory then ([HostEvent.memAlert usage], false)
          else ([HostEvent.memResolutionCheck usage], false)
      | _, _ => ([HostEvent.genericErrorAlert], true)

def serviceEvents (services : List (String × Bool)) : List HostEvent :=
  services.map (fun p =>
    if p.2 then HostEvent.serviceResolutionCheck p.1 else HostEvent.serviceAlert p.1)

/-- Events after the CPU step (memory, then disk, then services; a memory
exception aborts the remainder). -/
def afterCpuEvents (thr : Thresholds) (memOut : String) (diskLines : List String)
    (services : List (String × Bool)) : List HostEvent :=
  let m := memStep thr memOut
  if m.2 then m.1
  else m.1 ++ (diskSectionActions thr.disk diskLines).map HostEvent.diskAct
           ++ serviceEvents services

/-- The metric-processing trace of one `check_server` run that got past
the liveness probe and the SSH connect, as a function of the raw command
outputs. -/
def checkServerEvents (thr : Thresholds) (cpuOut memOut : String) (diskLines : List String)
    (services : List (String × Bool)) : List HostEvent :=
  let c := cpuStep thr cpuOut
  if c.2 then c.1
  else c.1 ++ afterCpuEvents thr memOut diskLines services

/-- Subject-kind choice of `_send_email_alert` (and the Telegram header of
`send_alert_to_all`): driven by `is_new_alert` alone. -/
def emailSubjectKind (is_new : Bool) : String :=
  if is_new then "NEW ALERT" else "RECURRING ALERT"

/-! ## Telegram subscriber registry (`telegram.py`) -/

structure Subscriber where
  chat_id : Int
  username : Option String
  first_name : Option String
  subscribed_at : Int
deriving DecidableEq

def memberChat (chat_id : Int) : List Subscriber → Bool
  | [] => false
  | s :: t => s.chat_id = chat_id || memberChat chat_id t

/-- `TelegramBot.add_subscriber`: no-op returning false when the chat id
is already present, otherwise append a fresh record. -/
def add_subscriber (subs : List Subscriber) (chat_id : Int)
    (username first_name : Option String) (now : Int) : List Subscriber × Bool :=
  if memberChat chat_id subs then (subs, false)
  else
    (subs ++ [{ chat_id := chat_id, username := username, first_name := first_name,
                subscribed_at := now }], true)

/-- `TelegramBot.remove_subscriber`: remove the first matching entry. -/
def remove_subscriber : List Subscriber → Int → List Subscriber × Bool
  | [], _ => ([], false)
  | s :: t, cid =>
    if s.chat_id = cid then (t, true)
    else
      let r := remove_subscriber t cid
      (s :: r.1, r.2)

inductive BotReply where
  | welcome
  | alreadySubscribed
  | unsubscribed
  | notSubscribed
  | statusActive
  | statusNone
  | helpText
  | unknown
deriving DecidableEq

/-- `TelegramBot.process_update` restricted to a message with a chat id
and text: the command dispatch and its registry mutation and reply. -/
def process_update (subs : List Subscriber) (chat_id : Int) (text : String)
    (username first_name : Option String) (now : Int) : List Subscriber × BotReply :=
  let t := lowerStr text
  if t = "/start" ∨ t = "/subscribe" then
    let r := add_subscriber subs chat_id username first_name now
    (r.1, if r.2 then BotReply.welcome else BotReply.alreadySubscribed)
  else if t = "/unsubscribe" ∨ t = "/stop" then
    let r := remove_subscriber subs chat_id
    (r.1, if r.2 then BotReply.unsubscribed else BotReply.notSubscribed)
  else if t = "/status" then
    (subs, if memberChat chat_id subs then BotReply.statusActive else BotReply.statusNone)
  else if t = "/help" then
    (subs, BotReply.helpText)
  else
    (subs, BotReply.unknown)

/-! ## Concrete fixtures used by the closed evaluation theorems -/

def quietConfig : Config :=
  { alert_cooldown := 1, email_enabled := false, telegram_configured := false }

def fullConfig : Config :=
  { alert_cooldown := 1, email_enabled := true, telegram_configured := true }

def emptyAMState : AMState :=
  { alert_status := { active_alerts := [], resolved_alerts := [] },
    session_active := false, session_new_alerts := [],
    session_recurring_alerts := [], session_resolved_alerts := [] }

def cpuRecordFix : AlertRecord :=
  { server := "web1", hostname := "h1", type' := "cpu", message := "CPU usage at 95 pct",
    first_detected := 0, last_detected := 0, last_notified := 0, resolved_time := none }

/-- State with one active CPU alert for web1, outside any session. -/
def activeCpuState : AMState :=
  { alert_status := ⟨[(get_alert_id "web1" "h1" "cpu", cpuRecordFix)], []⟩,
    session_active := false, session_new_alerts := [],
    session_recurring_alerts := [], session_resolved_alerts := [] }

/-- State with one resolved CPU alert for web1, inside a session. -/
def resolvedCpuSessionState : AMState :=
  { alert_status := ⟨[], [(get_alert_id "web1" "h1" "cpu", cpuRecordFix)]⟩,
    session_active := true, session_new_alerts := [],
    session_recurring_alerts := [], session_resolved_alerts := [] }

def memRecordFix : AlertRecord :=
  { server := "db1", hostname := "h2", type' := "memory", message := "Memory usage at 90 pct",
    first_detected := 0, last_detected := 0, last_notified := 0, resolved_time := none }

/-- State with two active alerts on different servers, outside any session. -/
def twoActiveState : AMState :=
  { alert_status := ⟨[(get_alert_id "web1" "h1" "cpu", cpuRecordFix),
                      (get_alert_id "db1" "h2" "memory", memRecordFix)], []⟩,
    session_active := false, session_new_alerts := [],
    session_recurring_alerts := [], session_resolved_alerts := [] }

def sessionAlertFix : SessionAlert :=
  { server := "web1", hostname := "h1", message := "CPU usage at 95 pct", type' := "cpu",
    alert_id := get_alert_id "web1" "h1" "cpu", is_new := true, is_recurring := false }

def sessionResolutionFix : SessionResolution :=
  { server := "web1", hostname := "h1", metric := "Memory", current_value := 40,
    threshold := 80, alert_id := get_alert_id "web1" "h1" "memory" }

/-- Mid-session state with one queued new alert and one queued resolution. -/
def sessionQueuedState : AMState :=
  { alert_status := ⟨[], []⟩, session_active := true,
    session_new_alerts := [sessionAlertFix], session_recurring_alerts := [],
    session_resolved_alerts := [sessionResolutionFix] }

/-- State with one resolved CPU alert for web1, outside any session. -/
def resolvedCpuState : AMState :=
  { alert_status := ⟨[], [(get_alert_id "web1" "h1" "cpu", cpuRecordFix)]⟩,
    session_active := false, session_new_alerts := [],
    session_recurring_alerts := [], session_resolved_alerts := [] }

/-- State reached after a per-mount disk breach alert on mount `/`. -/
def diskBreachState : AMState :=
  (send_alert quietConfig emptyAMState "web1" "h1"
    "Disk usage for root at 96 pct, threshold is 85 pct" (some "disk:/") 0 false false).state

/-- The per-mount alert type used by `check_server` when sending a disk
alert: `alert_type=f"disk:(mount)"` with the literal mount path. -/
def diskAlertType (mount : String) : String := "disk:" ++ mount

/-- The metric name used by `check_server` for a healthy disk reading:
`f"Disk ((mount))"` with the mount in round brackets. -/
def diskResolutionMetric (mount : String) : String := "Disk (" ++ mount ++ ")"

/-- The per-service alert type `f"service:(name)"`. -/
def serviceAlertType (name : String) : String := "service:" ++ name

/-- The metric name used for a running service: `f"Service ((name))"`. -/
def serviceResolutionMetric (name : String) : String := "Service (" ++ name ++ ")"

/-- The ledger invariant: no fingerprint is present in both partitions. -/
def DisjointStatus (s : AlertStatus) : Prop :=
  ∀ k, ¬((alLookup k s.active_alerts).isSome = true
        ∧ (alLookup k s.resolved_alerts).isSome = true)

/-! ## Helper lemmas on the association-list operations -/

theorem alLookup_alSet (k k' : String) (v : AlertRecord) (l : List (String × AlertRecord)) :
    alLookup k (alSet k' v l) = if k' = k then some v else alLookup k l := by
  induction l with
  | nil => by_cases h : k' = k <;> simp [alSet, alLookup, h]
  | cons p t ih =>
    obtain ⟨k'', v''⟩ := p
    by_cases h1 : k'' = k'
    · subst h1
      by_cases h2 : k'' = k <;> simp [alSet, alLookup, h2]
    · by_cases h2 : k'' = k
      · subst h2
        have h3 : ¬ k' = k'' := fun h => h1 h.symm
        simp [alSet, alLookup, h1, h3]
      · simp [alSet, alLookup, h1, h2, ih]

theorem alErase_cons (k' k'' : String) (v'' : AlertRecord) (t : List (String × AlertRecord)) :
    alErase k' ((k'', v'') :: t)
      = if k'' = k' then alErase k' t else (k'', v'') :: alErase k' t := by
  by_cases h : k'' = k' <;> simp [alErase, List.filter_cons, h]

theorem alLookup_alErase (k k' : String) (l : List (String × AlertRecord)) :
    alLookup k (alErase k' l) = if k' = k then none else alLookup k l := by
  induction l with
  | nil => by_cases h : k' = k <;> simp [alErase, alLookup, h]
  | cons p t ih =>
    obtain ⟨k'', v''⟩ := p
    rw [alErase_cons]
    by_cases h1 : k'' = k'
    · subst h1
      by_cases h2 : k'' = k
      · subst h2
        simpa [alLookup] using ih
      · simp [alLookup, h2, ih]
    · by_cases h2 : k'' = k
      · subst h2
        have h3 : ¬ k' = k'' := fun h => h1 h.symm
        simp [alLookup, h1, h3, ih]
      · simp [alLookup, h1, h2, ih]

theorem alLookup_reset (k : String) (l : List (String × AlertRecord)) (ts : Int) :
    alLookup k (reset_all_alert_cooldowns l ts)
      = (alLookup k l).map (fun r => { r with last_notified := ts }) := by
  induction l with
  | nil => simp [reset_all_alert_cooldowns, alLookup]
  | cons p t ih =>
    obtain ⟨k', v⟩ := p
    by_cases h : k' = k
    · simp [reset_all_alert_cooldowns, alLookup, h]
    · simp [reset_all_alert_cooldowns, alLookup, h] at ih ⊢
      exact ih

theorem alLookup_reset_last_notified (k : String) (l : List (String × AlertRecord))
    (ts : Int) (r : AlertRecord)
    (h : alLookup k (reset_all_alert_cooldowns l ts) = some r) : r.last_notified = ts := by
  rw [alLookup_reset] at h
  rcases h' : alLookup k l with _ | r0
  · rw [h'] at h; simp at h
  · rw [h'] at h
    simp only [Option.map_some'] at h
    cases h
    rfl

/-! ## Preservation of the ledger invariant -/

theorem disjoint_reset (s : AlertStatus) (ts : Int) (hd : DisjointStatus s) :
    DisjointStatus
      { s with active_alerts := reset_all_alert_cooldowns s.active_alerts ts } := by
  intro k hk
  rcases hk with ⟨hA, hR⟩
  rw [alLookup_reset] at hA
  exact hd k ⟨by simpa using hA, hR⟩

theorem disjoint_ledgerUpdate (cfg : Config) (s : AlertStatus) (aid n h m a : String)
    (now : Int) (hd : DisjointStatus s) :
    DisjointStatus (ledgerUpdate cfg s aid n h m a now).1 := by
  rcases hl : alLookup aid s.active_alerts with _ | r
  · -- new-alert branch
    cases hrec : (alLookup aid s.resolved_alerts).isSome
    · simp only [ledgerUpdate, hl, hrec, Option.isNone_none, if_true, Bool.false_eq_true,
        if_false]
      intro k hk
      rcases hk with ⟨hA, hR⟩
      rw [alLookup_alSet] at hA
      by_cases hk' : aid = k
      · subst hk'
        rw [hR] at hrec
        exact Bool.noConfusion hrec
      · exact hd k ⟨by simpa [hk'] using hA, hR⟩
    · simp only [ledgerUpdate, hl, hrec, Option.isNone_none, if_true]
      intro k hk
      rcases hk with ⟨hA, hR⟩
      rw [alLookup_alSet] at hA
      rw [alLookup_alErase] at hR
      by_cases hk' : aid = k
      · simp [hk'] at hR
      · exact hd k ⟨by simpa [hk'] using hA, by simpa [hk'] using hR⟩
  · -- existing-alert branch
    simp only [ledgerUpdate, hl, Option.isNone_some, Bool.false_eq_true, if_false]
    intro k hk
    rcases hk with ⟨hA, hR⟩
    rw [alLookup_alSet] at hA
    by_cases hk' : aid = k
    · subst hk'
      exact hd aid ⟨by simp [hl], hR⟩
    · exact hd k ⟨by simpa [hk'] using hA, hR⟩

theorem disjoint_send_alert (cfg : Config) (st : AMState) (n h m : String)
    (a : Option String) (now : Int) (eOk tOk : Bool) (hd : DisjointStatus st.alert_status) :
    DisjointStatus (send_alert cfg st n h m a now eOk tOk).state.alert_status := by
  have hu := disjoint_ledgerUpdate cfg st.alert_status
    (get_alert_id n h (derivedAlertType a m)) n h m (derivedAlertType a m) now hd
  simp only [send_alert]
  split
  · exact hu
  · split
    · exact disjoint_reset _ now hu
    · exact hu

theorem disjoint_resolve (cfg : Config) (st : AMState) (n h metric : String)
    (cv thr : ℚ) (now : Int) (eOk tOk : Bool) (hd : DisjointStatus st.alert_status) :
    DisjointStatus
      (check_alert_resolution cfg st n h metric cv thr now eOk tOk).state.alert_status := by
  simp only [check_alert_resolution]
  rcases hl : alLookup (get_alert_id n h (lowerStr metric)) st.alert_status.active_alerts
    with _ | alert
  · exact hd
  · by_cases hcv : cv < thr
    · have hmoved : DisjointStatus
          ⟨alErase (get_alert_id n h (lowerStr metric)) st.alert_status.active_alerts,
           alSet (get_alert_id n h (lowerStr metric))
             { alert with resolved_time := some now } st.alert_status.resolved_alerts⟩ := by
        intro k hk
        rcases hk with ⟨hA, hR⟩
        simp only [alLookup_alErase] at hA
        by_cases hk' : get_alert_id n h (lowerStr metric) = k
        · simp [hk'] at hA
        · rw [alLookup_alSet] at hR
          exact hd k ⟨by simpa [hk'] using hA, by simpa [hk'] using hR⟩
      simp only [hcv, if_true]
      split
      · exact hmoved
      · split
        · exact disjoint_reset _ now hmoved
        · exact hmoved
    · simpa [hcv] using hd

theorem disjoint_step (cfg : Config) (st : AMState) (op : Op)
    (hd : DisjointStatus st.alert_status) :
    DisjointStatus (step cfg st op).alert_status := by
  cases op with
  | record n h m a now e t => exact disjoint_send_alert cfg st n h m a now e t hd
  | resolve n h m cv thr now e t => exact disjoint_resolve cfg st n h m cv thr now e t hd
  | sessionStart => exact hd
  | sessionEnd now eA tA eR tR =>
    show DisjointStatus (end_session cfg st now eA tA eR tR).1.alert_status
    simp only [end_session]
    split
    · exact hd
    · split
      · exact disjoint_reset _ now hd
      · exact hd

/-- The cooldown comparison as a linear inequality over ℚ. -/
theorem cooldown_test_iff (x : Int) (cd : ℚ) :
    (mkRat x 3600 ≥ cd) ↔ cd * 3600 ≤ (x : ℚ) := by
  rw [Rat.mkRat_eq_div, ge_iff_le]
  have h36 : ((3600 : ℕ) : ℚ) = 3600 := by norm_num
  rw [h36, le_div_iff₀ (by norm_num : (0:ℚ) < 3600)]

/-- Behaviour of `send_alert` on a fingerprint that is already active:
`last_detected` is set to `now`, the notify decision is exactly the
cooldown test, and `last_notified` advances to `now` exactly when it
fires. -/
theorem send_alert_on_active (cfg : Config) (st : AMState) (n h msg atype : String)
    (now : Int) (eOk tOk : Bool) (r : AlertRecord) (hA : atype ≠ "")
    (hr : alLookup (get_alert_id n h atype) st.alert_status.active_alerts = some r) :
    (send_alert cfg st n h msg (some atype) now eOk tOk).should_send
      = decide (mkRat (now - r.last_notified) 3600 ≥ cfg.alert_cooldown)
    ∧ alLookup (get_alert_id n h atype)
        (send_alert cfg st n h msg (some atype) now eOk tOk).state.alert_status.active_alerts
      = some { r with
          last_detected := now,
          last_notified :=
            if mkRat (now - r.last_notified) 3600 ≥ cfg.alert_cooldown then now
            else r.last_notified } := by
  have hat : derivedAlertType (some atype) msg = atype := by simp [derivedAlertType, hA]
  have hisnew : (alLookup (get_alert_id n h atype) st.alert_status.active_alerts).isNone
      = false := by simp [hr]
  by_cases hc : mkRat (now - r.last_notified) 3600 ≥ cfg.alert_cooldown
  · have hd1 : decide (mkRat (now - r.last_notified) 3600 ≥ cfg.alert_cooldown) = true :=
      decide_eq_true hc
    cases hs : st.session_active <;>
      simp [send_alert, hat, ledgerUpdate, hisnew, hr, hd1, hc, hs,
        alLookup_alSet, alLookup_reset, apply_ite AlertStatus.active_alerts,
        apply_ite (alLookup (get_alert_id n h atype))]
  · have hd1 : decide (mkRat (now - r.last_notified) 3600 ≥ cfg.alert_cooldown) = false :=
      decide_eq_false hc
    cases hs : st.session_active <;>
      simp [send_alert, hat, ledgerUpdate, hisnew, hr, hd1, hc, hs, alLookup_alSet]

/-! ## Claim theorems -/

/-- C2: starting from a state where the `active_alerts` and
`resolved_alerts` partitions are disjoint, no sequence of `send_alert`
(recordObservation) and `check_alert_resolution` (resolve) calls — nor the
session operations — ever puts a fingerprint in both partitions at once. -/
theorem c2_partitions_stay_disjoint (cfg : Config) (st : AMState) (ops : List Op)
    (hd : DisjointStatus st.alert_status) :
    DisjointStatus (runOps cfg st ops).alert_status := by
  induction ops generalizing st with
  | nil => simpa [runOps] using hd
  | cons op rest ih =>
    have h1 : runOps cfg st (op :: rest) = runOps cfg (step cfg st op) rest := by
      simp [runOps]
    rw [h1]
    exact ih (step cfg st op) (disjoint_step cfg st op hd)

theorem c2_partitions_stay_disjoint_witness :
    DisjointStatus
      (runOps quietConfig emptyAMState
        [Op.record "web1" "h1" "CPU usage at 95 pct" none 0 true true,
         Op.resolve "web1" "h1" "CPU" 40 80 3600 true true,
         Op.record "web1" "h1" "CPU usage at 95 pct" none 7200 true true]).alert_status :=
  c2_partitions_stay_disjoint quietConfig emptyAMState _
    (by intro k hk; simp [emptyAMState, alLookup] at hk)

/-- C1: false on the code.  A disk breach is recorded under the alert type
`disk:/` but the healthy reading calls `check_alert_resolution` with metric
`Disk (/)`, whose lowercased form hashes to a different fingerprint, so the
alert is never moved out of `active_alerts`; the same shape mismatch holds
for the service types.  This theorem evaluates the code at the failing
input. -/
theorem c1_resolution_fingerprint_mismatch :
    (alLookup (get_alert_id "web1" "h1" (diskAlertType "/"))
        diskBreachState.alert_status.active_alerts).isSome = true
    ∧ (check_alert_resolution quietConfig diskBreachState "web1" "h1"
        (diskResolutionMetric "/") 40 85 100 true true).moved = false
    ∧ (check_alert_resolution quietConfig diskBreachState "web1" "h1"
        (diskResolutionMetric "/") 40 85 100 true true).state = diskBreachState
    ∧ (alLookup (get_alert_id "web1" "h1" (diskAlertType "/"))
        (check_alert_resolution quietConfig diskBreachState "web1" "h1"
          (diskResolutionMetric "/") 40 85 100 true true).state.alert_status.active_alerts).isSome
        = true
    ∧ (check_alert_resolution quietConfig diskBreachState "web1" "h1"
        (diskResolutionMetric "/") 40 85 100 true
        true).state.alert_status.resolved_alerts = []
    ∧ get_alert_id "web1" "h1" (lowerStr (diskResolutionMetric "/"))
        ≠ get_alert_id "web1" "h1" (diskAlertType "/")
    ∧ get_alert_id "web1" "h1" (lowerStr (serviceResolutionMetric "nginx"))
        ≠ get_alert_id "web1" "h1" (serviceAlertType "nginx") := by
  decide

/-- C3: false on the code.  A fingerprint sitting in `resolved_alerts` and
absent from `active_alerts` is re-observed: `is_new_alert` is true (it is
not in `active_alerts`), so the event is queued in `session_new_alerts`
(not `session_recurring_alerts`) and the immediate notification renders
the NEW ALERT header, while the claim says the event is classified
Recurring, not New. -/
theorem c3_recurring_classified_as_new :
    (send_alert quietConfig resolvedCpuSessionState "web1" "h1" "CPU usage at 95 pct"
        none 7200 true true).is_new = true
    ∧ (send_alert quietConfig resolvedCpuSessionState "web1" "h1" "CPU usage at 95 pct"
        none 7200 true true).state.session_new_alerts.map SessionAlert.is_new = [true]
    ∧ (send_alert quietConfig resolvedCpuSessionState "web1" "h1" "CPU usage at 95 pct"
        none 7200 true true).state.session_recurring_alerts = []
    ∧ emailSubjectKind
        (send_alert fullConfig resolvedCpuState "web1" "h1" "CPU usage at 95 pct"
          none 7200 true true).is_new = "NEW ALERT"
    ∧ (send_alert fullConfig resolvedCpuState "web1" "h1" "CPU usage at 95 pct"
        none 7200 true true).email_sent = true := by
  decide

/-- C3 amended: for a fingerprint in `resolved_alerts` and not in
`active_alerts`, a new observation is classified New (`is_new=true`, NEW
ALERT header; in a session it is queued in `session_new_alerts`) with
`is_recurring=true` merely recorded in the queued data, and the
fingerprint is removed from `resolved_alerts`. -/
theorem c3_amended_reobservation_is_new (cfg : Config) (st : AMState)
    (n h msg atype : String) (now : Int) (eOk tOk : Bool) (hA : atype ≠ "")
    (hact : alLookup (get_alert_id n h atype) st.alert_status.active_alerts = none)
    (hres : (alLookup (get_alert_id n h atype) st.alert_status.resolved_alerts).isSome
      = true) :
    (send_alert cfg st n h msg (some atype) now eOk tOk).is_new = true
    ∧ (send_alert cfg st n h msg (some atype) now eOk tOk).is_recurring = true
    ∧ (send_alert cfg st n h msg (some atype) now eOk tOk).should_send = true
    ∧ alLookup (get_alert_id n h atype)
        (send_alert cfg st n h msg (some atype) now eOk tOk).state.alert_status.resolved_alerts
        = none
    ∧ emailSubjectKind (send_alert cfg st n h msg (some atype) now eOk tOk).is_new
        = "NEW ALERT"
    ∧ (st.session_active = true →
        (send_alert cfg st n h msg (some atype) now eOk tOk).state.session_new_alerts
          = st.session_new_alerts ++
            [{ server := n, hostname := h, message := msg, type' := atype,
               alert_id := get_alert_id n h atype, is_new := true, is_recurring := true }]
        ∧ (send_alert cfg st n h msg (some atype) now eOk tOk).state.session_recurring_alerts
            = st.session_recurring_alerts) := by
  have hat : derivedAlertType (some atype) msg = atype := by
    simp [derivedAlertType, hA]
  have hisnew : (alLookup (get_alert_id n h atype) st.alert_status.active_alerts).isNone
      = true := by simp [hact]
  simp only [send_alert, hat, ledgerUpdate, hisnew, hres, if_true]
  cases hs : st.session_active <;>
    simp [emailSubjectKind, alLookup_alErase, hres,
      apply_ite AlertStatus.resolved_alerts]

theorem c3_amended_reobservation_is_new_witness :
    (send_alert quietConfig resolvedCpuSessionState "web1" "h1" "CPU usage high"
        (some "cpu") 7200 false false).is_new = true
    ∧ (send_alert quietConfig resolvedCpuSessionState "web1" "h1" "CPU usage high"
        (some "cpu") 7200 false false).is_recurring = true
    ∧ (send_alert quietConfig resolvedCpuSessionState "web1" "h1" "CPU usage high"
        (some "cpu") 7200 false false).should_send = true
    ∧ alLookup (get_alert_id "web1" "h1" "cpu")
        (send_alert quietConfig resolvedCpuSessionState "web1" "h1" "CPU usage high"
          (some "cpu") 7200 false false).state.alert_status.resolved_alerts = none
    ∧ emailSubjectKind
        (send_alert quietConfig resolvedCpuSessionState "web1" "h1" "CPU usage high"
          (some "cpu") 7200 false false).is_new = "NEW ALERT"
    ∧ (resolvedCpuSessionState.session_active = true →
        (send_alert quietConfig resolvedCpuSessionState "web1" "h1" "CPU usage high"
          (some "cpu") 7200 false false).state.session_new_alerts
          = resolvedCpuSessionState.session_new_alerts ++
            [{ server := "web1", hostname := "h1", message := "CPU usage high",
               type' := "cpu", alert_id := get_alert_id "web1" "h1" "cpu",
               is_new := true, is_recurring := true }]
        ∧ (send_alert quietConfig resolvedCpuSessionState "web1" "h1" "CPU usage high"
            (some "cpu") 7200 false false).state.session_recurring_alerts
            = resolvedCpuSessionState.session_recurring_alerts) :=
  c3_amended_reobservation_is_new quietConfig resolvedCpuSessionState "web1" "h1"
    "CPU usage high" "cpu" 7200 false false (by decide) (by decide) (by decide)

/-- C4: false on the code as stated.  With an already-active alert whose
`last_notified` is recent (time 0, cooldown 1 hour), two further
observations at times 100 and 200 — 100 seconds apart, well inside one
cooldown window — are both rate-limited: zero notifications, where the
claim promises exactly one. -/
theorem c4_two_calls_can_notify_zero_times :
    mkRat (200 - 100) 3600 < quietConfig.alert_cooldown
    ∧ (send_alert quietConfig activeCpuState "web1" "h1" "CPU usage at 95 pct"
        (some "cpu") 100 true true).should_send = false
    ∧ (send_alert quietConfig
        (send_alert quietConfig activeCpuState "web1" "h1" "CPU usage at 95 pct"
          (some "cpu") 100 true true).state
        "web1" "h1" "CPU usage at 95 pct" (some "cpu") 200 true true).should_send
        = false := by
  decide

/-- C4 amended: for an already-active fingerprint, every call updates
`last_detected` to `now`, the decision to notify holds iff
`(now - last_notified)/3600 ≥ cooldown` (and then `last_notified := now`);
two calls within one cooldown window therefore yield at most one
notification — exactly one iff the second call time clears the original
cooldown, i.e. `(t2 - last_notified)/3600 ≥ cooldown`. -/
theorem c4_amended_cooldown_rate_limit (cfg : Config) (st : AMState)
    (n h msg atype : String) (r : AlertRecord) (t1 t2 : Int) (e1 k1 e2 k2 : Bool)
    (hA : atype ≠ "")
    (hr : alLookup (get_alert_id n h atype) st.alert_status.active_alerts = some r)
    (h12 : t1 ≤ t2)
    (hwin : mkRat (t2 - t1) 3600 < cfg.alert_cooldown) :
    ((send_alert cfg st n h msg (some atype) t1 e1 k1).should_send = true
        ↔ mkRat (t1 - r.last_notified) 3600 ≥ cfg.alert_cooldown)
    ∧ (∃ r1, alLookup (get_alert_id n h atype)
          (send_alert cfg st n h msg (some atype) t1 e1 k1).state.alert_status.active_alerts
          = some r1
        ∧ r1.last_detected = t1
        ∧ ((send_alert cfg st n h msg (some atype) t1 e1 k1).should_send = true →
            r1.last_notified = t1))
    ∧ (∃ r2, alLookup (get_alert_id n h atype)
          (send_alert cfg (send_alert cfg st n h msg (some atype) t1 e1 k1).state
            n h msg (some atype) t2 e2 k2).state.alert_status.active_alerts
          = some r2
        ∧ r2.last_detected = t2)
    ∧ ((if (send_alert cfg st n h msg (some atype) t1 e1 k1).should_send then 1 else 0)
        + (if (send_alert cfg (send_alert cfg st n h msg (some atype) t1 e1 k1).state
            n h msg (some atype) t2 e2 k2).should_send then 1 else 0)
        = if mkRat (t2 - r.last_notified) 3600 ≥ cfg.alert_cooldown then (1:ℕ) else 0) := by
  obtain ⟨hS1, hL1⟩ := send_alert_on_active cfg st n h msg atype t1 e1 k1 r hA hr
  obtain ⟨hS2, hL2⟩ := send_alert_on_active cfg
    (send_alert cfg st n h msg (some atype) t1 e1 k1).state n h msg atype t2 e2 k2 _ hA hL1
  have hmono : mkRat (t1 - r.last_notified) 3600 ≥ cfg.alert_cooldown →
      mkRat (t2 - r.last_notified) 3600 ≥ cfg.alert_cooldown := by
    rw [cooldown_test_iff, cooldown_test_iff]
    intro hx
    have hcast : ((t1 - r.last_notified : Int) : ℚ) ≤ ((t2 - r.last_notified : Int) : ℚ) := by
      exact_mod_cast Int.sub_le_sub_right h12 r.last_notified
    linarith
  refine ⟨by simp [hS1], ⟨_, hL1, rfl, ?_⟩, ⟨_, hL2, rfl⟩, ?_⟩
  · intro hs
    rw [hS1] at hs
    simp only [decide_eq_true_eq] at hs
    simp [hs]
  · by_cases hc1 : mkRat (t1 - r.last_notified) 3600 ≥ cfg.alert_cooldown
    · have hr1 : ({ r with
          last_detected := t1,
          last_notified :=
            if mkRat (t1 - r.last_notified) 3600 ≥ cfg.alert_cooldown then t1
            else r.last_notified } : AlertRecord).last_notified = t1 := by
        simp [hc1]
      have hc2 : ¬ (mkRat (t2 - t1) 3600 ≥ cfg.alert_cooldown) := not_le.mpr hwin
      rw [hS1, hS2, hr1]
      simp [hc1, hc2, hmono hc1]
    · have hr1 : ({ r with
          last_detected := t1,
          last_notified :=
            if mkRat (t1 - r.last_notified) 3600 ≥ cfg.alert_cooldown then t1
            else r.last_notified } : AlertRecord).last_notified = r.last_notified := by
        simp [hc1]
      rw [hS1, hS2, hr1]
      by_cases hc2 : mkRat (t2 - r.last_notified) 3600 ≥ cfg.alert_cooldown <;>
        simp [hc1, hc2]

theorem c4_amended_cooldown_rate_limit_witness :
    ((send_alert quietConfig activeCpuState "web1" "h1" "CPU usage at 95 pct"
        (some "cpu") 100 true true).should_send = true
        ↔ mkRat (100 - cpuRecordFix.last_notified) 3600 ≥ quietConfig.alert_cooldown)
    ∧ (∃ r1, alLookup (get_alert_id "web1" "h1" "cpu")
          (send_alert quietConfig activeCpuState "web1" "h1" "CPU usage at 95 pct"
            (some "cpu") 100 true true).state.alert_status.active_alerts
          = some r1
        ∧ r1.last_detected = 100
        ∧ ((send_alert quietConfig activeCpuState "web1" "h1" "CPU usage at 95 pct"
            (some "cpu") 100 true true).should_send = true →
            r1.last_notified = 100))
    ∧ (∃ r2, alLookup (get_alert_id "web1" "h1" "cpu")
          (send_alert quietConfig
            (send_alert quietConfig activeCpuState "web1" "h1" "CPU usage at 95 pct"
              (some "cpu") 100 true true).state
            "web1" "h1" "CPU usage at 95 pct" (some "cpu") 200 true true).state.alert_status.active_alerts
          = some r2
        ∧ r2.last_detected = 200)
    ∧ ((if (send_alert quietConfig activeCpuState "web1" "h1" "CPU usage at 95 pct"
            (some "cpu") 100 true true).should_send then 1 else 0)
        + (if (send_alert quietConfig
            (send_alert quietConfig activeCpuState "web1" "h1" "CPU usage at 95 pct"
              (some "cpu") 100 true true).state
            "web1" "h1" "CPU usage at 95 pct" (some "cpu") 200 true true).should_send
            then 1 else 0)
        = if mkRat (200 - cpuRecordFix.last_notified) 3600 ≥ quietConfig.alert_cooldown
          then (1:ℕ) else 0) :=
  c4_amended_cooldown_rate_limit quietConfig activeCpuState "web1" "h1"
    "CPU usage at 95 pct" "cpu" cpuRecordFix 100 200 true true true true
    (by decide) (by decide) (by decide) (by decide)

theorem countEv_append (x : BatchEvent) (l1 l2 : List BatchEvent) :
    countEv x (l1 ++ l2) = countEv x l1 + countEv x l2 := by
  induction l1 with
  | nil => simp [countEv]
  | cons e t ih => by_cases h : e = x <;> simp [countEv, h, ih, Nat.add_assoc]

theorem countEv_channel_ne (cfg : Config) (x : BatchEvent)
    (mk : Channel → BatchEvent) (hmk : ∀ c, mk c ≠ x) :
    countEv x (channelEvents cfg mk) = 0 := by
  unfold channelEvents
  cases hE : cfg.email_enabled <;> cases hT : cfg.telegram_configured <;>
    simp [countEv, hmk Channel.email, hmk Channel.telegram]

theorem countEv_channel_self (cfg : Config) (mk : Channel → BatchEvent)
    (hinj : mk Channel.email ≠ mk Channel.telegram) :
    countEv (mk Channel.email) (channelEvents cfg mk)
      = (if cfg.email_enabled = true then 1 else 0)
    ∧ countEv (mk Channel.telegram) (channelEvents cfg mk)
      = (if cfg.telegram_configured = true then 1 else 0) := by
  have hinj' : mk Channel.telegram ≠ mk Channel.email := fun h => hinj h.symm
  unfold channelEvents
  cases hE : cfg.email_enabled <;> cases hT : cfg.telegram_configured <;>
    simp [countEv, hinj, hinj']

/-- C5: after a successful delivery on at least one channel, the
`last_notified` timestamp of every record in `active_alerts` equals the
event timestamp: for an immediate alert send, for an immediate resolution
send (all remaining active alerts), and for a batch session, where the
reset event is emitted exactly once per batch, not once per contained
alert. -/
theorem c5_reset_all_cooldowns_on_delivery :
    (∀ (cfg : Config) (st : AMState) (n h m : String) (a : Option String) (now : Int)
        (eOk tOk : Bool) (k : String) (rec : AlertRecord),
      ((send_alert cfg st n h m a now eOk tOk).email_sent = true
        ∨ (send_alert cfg st n h m a now eOk tOk).telegram_sent = true) →
      alLookup k (send_alert cfg st n h m a now eOk tOk).state.alert_status.active_alerts
        = some rec →
      rec.last_notified = now)
    ∧ (∀ (cfg : Config) (st : AMState) (n h metric : String) (cv thr : ℚ) (now : Int)
        (eOk tOk : Bool) (k : String) (rec : AlertRecord),
      ((check_alert_resolution cfg st n h metric cv thr now eOk tOk).email_sent = true
        ∨ (check_alert_resolution cfg st n h metric cv thr now eOk tOk).telegram_sent = true) →
      alLookup k
        (check_alert_resolution cfg st n h metric cv thr now eOk tOk).state.alert_status.active_alerts
        = some rec →
      rec.last_notified = now)
    ∧ (∀ (cfg : Config) (st : AMState) (now : Int) (eA tA eR tR : Bool),
      countEv (BatchEvent.resetAll now) (end_session cfg st now eA tA eR tR).2
        = (if st.session_active = true
            ∧ (batchAlertsSent cfg st eA tA = true ∨ batchResolutionsSent cfg st eR tR = true)
           then 1 else 0)
      ∧ (∀ (k : String) (rec : AlertRecord), st.session_active = true →
          (batchAlertsSent cfg st eA tA = true ∨ batchResolutionsSent cfg st eR tR = true) →
          alLookup k (end_session cfg st now eA tA eR tR).1.alert_status.active_alerts
            = some rec →
          rec.last_notified = now)) := by
  refine ⟨?_, ?_, ?_⟩
  · intro cfg st n h m a now eOk tOk k rec hsent hk
    by_cases hcond : (st.session_active
        && (ledgerUpdate cfg st.alert_status (get_alert_id n h (derivedAlertType a m))
            n h m (derivedAlertType a m) now).2) = true
    · simp only [send_alert, hcond, if_true] at hsent
      rcases hsent with hx | hx <;> exact Bool.noConfusion hx
    · simp only [send_alert, hcond, if_false, Bool.false_eq_true] at hsent hk
      have hb : ((ledgerUpdate cfg st.alert_status (get_alert_id n h (derivedAlertType a m))
            n h m (derivedAlertType a m) now).2 && !st.session_active && cfg.email_enabled && eOk
          || (ledgerUpdate cfg st.alert_status (get_alert_id n h (derivedAlertType a m))
            n h m (derivedAlertType a m) now).2 && !st.session_active && cfg.telegram_configured && tOk)
          = true := by
        rcases hsent with hx | hx <;> simp [hx]
      rw [hb] at hk
      simp only [if_true] at hk
      exact alLookup_reset_last_notified _ _ _ _ hk
  · intro cfg st n h metric cv thr now eOk tOk k rec hsent hk
    rcases hl : alLookup (get_alert_id n h (lowerStr metric)) st.alert_status.active_alerts
      with _ | alert
    · simp [check_alert_resolution, hl] at hsent
    · by_cases hcv : cv < thr
      · by_cases hs : st.session_active = true
        · simp [check_alert_resolution, hl, hcv, hs] at hsent
        · have hs' : st.session_active = false := by
            simpa [Bool.not_eq_true] using hs
          simp only [check_alert_resolution] at hk
          rw [hl] at hk
          simp only [hcv, if_true, hs', Bool.false_eq_true, if_false] at hk
          simp [check_alert_resolution, hl, hcv, hs'] at hsent
          cases hie : (alErase (get_alert_id n h (lowerStr metric))
              st.alert_status.active_alerts).isEmpty
          · have hguard : ((cfg.email_enabled && eOk || cfg.telegram_configured && tOk)
                && !(alErase (get_alert_id n h (lowerStr metric))
                      st.alert_status.active_alerts).isEmpty) = true := by
              rcases hsent with ⟨hx1, hx2⟩ | ⟨hx1, hx2⟩ <;> simp [hx1, hx2, hie]
            rw [hguard] at hk
            simp only [if_true] at hk
            exact alLookup_reset_last_notified _ _ _ _ hk
          · have hnil := List.isEmpty_iff.mp hie
            rw [hnil] at hk
            simp [reset_all_alert_cooldowns, alLookup,
              apply_ite AlertStatus.active_alerts, apply_ite (alLookup k)] at hk
      · simp [check_alert_resolution, hl, hcv] at hsent
  · intro cfg st now eA tA eR tR
    by_cases hs : st.session_active = true
    · have hns : (!st.session_active) = false := by simp [hs]
      constructor
      · simp only [end_session, hns, Bool.false_eq_true, if_false]
        rw [countEv_append, countEv_append]
        have h1 : countEv (BatchEvent.resetAll now)
            (if (!st.session_new_alerts.isEmpty || !st.session_recurring_alerts.isEmpty) = true
             then channelEvents cfg BatchEvent.alertSummary else []) = 0 := by
          split
          · exact countEv_channel_ne cfg _ _ (fun c => by simp)
          · simp [countEv]
        have h2 : countEv (BatchEvent.resetAll now)
            (if (!st.session_resolved_alerts.isEmpty) = true
             then channelEvents cfg BatchEvent.resolutionSummary else []) = 0 := by
          split
          · exact countEv_channel_ne cfg _ _ (fun c => by simp)
          · simp [countEv]
        rw [h1, h2]
        cases hsent : (batchAlertsSent cfg st eA tA || batchResolutionsSent cfg st eR tR)
        · have : ¬(st.session_active = true
              ∧ (batchAlertsSent cfg st eA tA = true ∨ batchResolutionsSent cfg st eR tR = true)) := by
            intro hx
            rcases hx with ⟨_, hx2⟩
            rcases hx2 with hx2 | hx2 <;> simp [hx2] at hsent
          simp [hsent, countEv, this]
        · have : (st.session_active = true
              ∧ (batchAlertsSent cfg st eA tA = true ∨ batchResolutionsSent cfg st eR tR = true)) := by
            refine ⟨hs, ?_⟩
            rcases Bool.or_eq_true_iff.mp hsent with hx | hx
            · exact Or.inl hx
            · exact Or.inr hx
          simp [hsent, countEv, this]
      · intro k rec _ hsent hk
        have hb : (batchAlertsSent cfg st eA tA || batchResolutionsSent cfg st eR tR) = true := by
          rcases hsent with hx | hx <;> simp [hx]
        simp only [end_session, hns, Bool.false_eq_true, if_false, hb, if_true] at hk
        exact alLookup_reset_last_notified _ _ _ _ hk
    · have hns : (!st.session_active) = true := by
        simp [Bool.not_eq_true] at hs
        simp [hs]
      constructor
      · simp [end_session, hns, countEv, hs]
      · intro k rec hx
        exact absurd hx hs

theorem c5_reset_all_cooldowns_on_delivery_witness :
    ({ memRecordFix with last_notified := 7200 } : AlertRecord).last_notified = 7200 :=
  c5_reset_all_cooldowns_on_delivery.1 fullConfig twoActiveState "web1" "h1"
    "CPU usage at 95 pct" (some "cpu") 7200 true true
    (get_alert_id "db1" "h2" "memory") { memRecordFix with last_notified := 7200 }
    (Or.inl (by decide)) (by decide)

/-- C6: `end_session` with at least one queued new or recurring alert
dispatches exactly one alert-summary payload per enabled channel,
independently of how many alerts were queued; queued resolutions go out as
exactly one separate resolution-summary payload per enabled channel, and
none when no resolution was queued. -/
theorem c6_one_summary_payload_per_channel (cfg : Config) (st : AMState) (now : Int)
    (eA tA eR tR : Bool) (hs : st.session_active = true)
    (hne : st.session_new_alerts ≠ [] ∨ st.session_recurring_alerts ≠ []) :
    countEv (BatchEvent.alertSummary Channel.email) (end_session cfg st now eA tA eR tR).2
      = (if cfg.email_enabled = true then 1 else 0)
    ∧ countEv (BatchEvent.alertSummary Channel.telegram) (end_session cfg st now eA tA eR tR).2
      = (if cfg.telegram_configured = true then 1 else 0)
    ∧ (st.session_resolved_alerts ≠ [] →
        countEv (BatchEvent.resolutionSummary Channel.email)
          (end_session cfg st now eA tA eR tR).2
          = (if cfg.email_enabled = true then 1 else 0)
        ∧ countEv (BatchEvent.resolutionSummary Channel.telegram)
            (end_session cfg st now eA tA eR tR).2
          = (if cfg.telegram_configured = true then 1 else 0))
    ∧ (st.session_resolved_alerts = [] →
        countEv (BatchEvent.resolutionSummary Channel.email)
          (end_session cfg st now eA tA eR tR).2 = 0
        ∧ countEv (BatchEvent.resolutionSummary Channel.telegram)
            (end_session cfg st now eA tA eR tR).2 = 0) := by
  have hns : (!st.session_active) = false := by simp [hs]
  have halerts : (!st.session_new_alerts.isEmpty || !st.session_recurring_alerts.isEmpty)
      = true := by
    rcases hne with h | h <;> simp [h]
  have hev : (end_session cfg st now eA tA eR tR).2
      = (channelEvents cfg BatchEvent.alertSummary
        ++ (if (!st.session_resolved_alerts.isEmpty) = true
            then channelEvents cfg BatchEvent.resolutionSummary else []))
        ++ (if (batchAlertsSent cfg st eA tA || batchResolutionsSent cfg st eR tR) = true
            then [BatchEvent.resetAll now] else []) := by
    simp only [end_session, hns, Bool.false_eq_true, if_false, halerts, if_true]
  have hz1 : ∀ c : Channel, countEv (BatchEvent.alertSummary c)
      (if (batchAlertsSent cfg st eA tA || batchResolutionsSent cfg st eR tR) = true
       then [BatchEvent.resetAll now] else []) = 0 := by
    intro c; split <;> simp [countEv]
  have hz2 : ∀ c : Channel, countEv (BatchEvent.resolutionSummary c)
      (if (batchAlertsSent cfg st eA tA || batchResolutionsSent cfg st eR tR) = true
       then [BatchEvent.resetAll now] else []) = 0 := by
    intro c; split <;> simp [countEv]
  have hz3 : ∀ c : Channel, countEv (BatchEvent.alertSummary c)
      (if (!st.session_resolved_alerts.isEmpty) = true
       then channelEvents cfg BatchEvent.resolutionSummary else []) = 0 := by
    intro c
    split
    · exact countEv_channel_ne cfg _ _ (fun c' => by simp)
    · simp [countEv]
  obtain ⟨hae, hat⟩ := countEv_channel_self cfg BatchEvent.alertSummary (by simp)
  obtain ⟨hre, hrt⟩ := countEv_channel_self cfg BatchEvent.resolutionSummary (by simp)
  refine ⟨?_, ?_, ?_, ?_⟩
  · rw [hev, countEv_append, countEv_append, hae, hz1, hz3]
    simp
  · rw [hev, countEv_append, countEv_append, hat, hz1, hz3]
    simp
  · intro hr
    have hrne : (!st.session_resolved_alerts.isEmpty) = true := by simp [hr]
    constructor
    · rw [hev, countEv_append, countEv_append, hrne, if_pos rfl, hre, hz2,
        countEv_channel_ne cfg _ _ (fun c => by simp)]
      simp
    · rw [hev, countEv_append, countEv_append, hrne, if_pos rfl, hrt, hz2,
        countEv_channel_ne cfg _ _ (fun c => by simp)]
      simp
  · intro hr
    have hrne : (!st.session_resolved_alerts.isEmpty) = false := by simp [hr]
    constructor
    · rw [hev, countEv_append, countEv_append, hrne, hz2,
        countEv_channel_ne cfg _ _ (fun c => by simp)]
      simp [countEv]
    · rw [hev, countEv_append, countEv_append, hrne, hz2,
        countEv_channel_ne cfg _ _ (fun c => by simp)]
      simp [countEv]

theorem c6_one_summary_payload_per_channel_witness :
    countEv (BatchEvent.alertSummary Channel.email)
      (end_session fullConfig sessionQueuedState 9000 true true true true).2
      = (if fullConfig.email_enabled = true then 1 else 0)
    ∧ countEv (BatchEvent.alertSummary Channel.telegram)
        (end_session fullConfig sessionQueuedState 9000 true true true true).2
      = (if fullConfig.telegram_configured = true then 1 else 0)
    ∧ (sessionQueuedState.session_resolved_alerts ≠ [] →
        countEv (BatchEvent.resolutionSummary Channel.email)
          (end_session fullConfig sessionQueuedState 9000 true true true true).2
          = (if fullConfig.email_enabled = true then 1 else 0)
        ∧ countEv (BatchEvent.resolutionSummary Channel.telegram)
            (end_session fullConfig sessionQueuedState 9000 true true true true).2
          = (if fullConfig.telegram_configured = true then 1 else 0))
    ∧ (sessionQueuedState.session_resolved_alerts = [] →
        countEv (BatchEvent.resolutionSummary Channel.email)
          (end_session fullConfig sessionQueuedState 9000 true true true true).2 = 0
        ∧ countEv (BatchEvent.resolutionSummary Channel.telegram)
            (end_session fullConfig sessionQueuedState 9000 true true true true).2 = 0) :=
  c6_one_summary_payload_per_channel fullConfig sessionQueuedState 9000 true true true true
    (by decide) (Or.inl (by decide))

/-- C7: a `df` line whose filesystem or mount point matches the pseudo or
read-only-overlay patterns — tmpfs, devtmpfs (dropped by the remote grep
filter), squashfs, or a mount under `/snap` (skipped by the Python loop) —
contributes neither an alert nor a resolution, regardless of the usage
percentage on the line. -/
theorem c7_pseudo_mounts_never_alert_or_resolve (thr : ℚ) (line : String)
    (hp : containsSub "tmpfs".toList line.toList = true
        ∨ containsSub "devtmpfs".toList line.toList = true
        ∨ (∃ f, diskFields line = some f
            ∧ (containsSub "squashfs".toList (lowerStr f.filesystem).toList = true
               ∨ startsWithL "/snap".toList f.mount.toList = true
               ∨ containsSub "/snap/".toList f.mount.toList = true))) :
    diskLineContribution thr line = [] := by
  by_cases hg : grepKeepLine line = true
  · have hg' := hg
    simp only [grepKeepLine, Bool.and_eq_true, Bool.not_eq_true'] at hg'
    obtain ⟨⟨⟨h1, h2⟩, h3⟩, h4⟩ := hg'
    rcases hp with h | h | ⟨f, hf, hsk⟩
    · rw [h] at h1; exact Bool.noConfusion h1
    · rw [h] at h2; exact Bool.noConfusion h2
    · simp only [diskLineContribution, hg, if_true, processDiskLine, hf]
      rcases hsk with h | h | h <;> simp at h <;> simp [h]
  · have hg2 : grepKeepLine line = false := by
      cases hgv : grepKeepLine line
      · rfl
      · exact absurd hgv hg
    simp [diskLineContribution, hg2]

theorem c7_pseudo_mounts_never_alert_or_resolve_witness :
    diskLineContribution 85 "tmpfs 164 0 164 100% /dev/shm" = []
    ∧ diskLineContribution 85 "/dev/loop9 50M 50M 0 100% /snap/core/123" = [] :=
  ⟨c7_pseudo_mounts_never_alert_or_resolve 85 "tmpfs 164 0 164 100% /dev/shm"
      (Or.inl (by decide)),
   c7_pseudo_mounts_never_alert_or_resolve 85 "/dev/loop9 50M 50M 0 100% /snap/core/123"
      (Or.inr (Or.inr
        ⟨{ filesystem := "/dev/loop9", mount := "/snap/core/123", usage_str := "100" },
         by decide, Or.inr (Or.inl (by decide))⟩))⟩

/-- C8: false on the code as stated.  A non-empty CPU output that does not
parse as a number ("abc") raises ValueError past the metric code into the
host-level exception handler: a generic "Error checking server" alert IS
raised and the rest of the host check (memory, disk, services) does NOT
proceed, even though their outputs are valid. -/
theorem c8_unparseable_cpu_aborts_host_check :
    checkServerEvents ⟨80, 80, 85⟩ "abc" "Mem: 100 50 10 5 35"
      ["/dev/sda1 100G 96G 4G 96% /"] [("nginx", true)] = [HostEvent.genericErrorAlert]
    ∧ parseQ? "abc".toList = none
    ∧ "abc" ≠ "" := by
  decide

/-- C8 amended: an EMPTY metric output is logged and skipped with no alert
and no resolution for that metric, and the rest of the host check
proceeds; an unparseable disk usage value is skipped per line; but a
non-empty unparseable CPU or Memory output (missing fields, tokens that
are not integers, or a zero total for the division) instead aborts the
host check with a single generic error alert, so the later metrics never
run. -/
theorem c8_amended_parse_failures (thr : Thresholds) :
    (∀ (memOut : String) (diskLines : List String) (services : List (String × Bool)),
      checkServerEvents thr "" memOut diskLines services
        = HostEvent.cpuParseFail :: afterCpuEvents thr memOut diskLines services)
    ∧ (∀ (cpuOut memOut : String) (diskLines : List String)
        (services : List (String × Bool)),
      cpuOut ≠ "" → parseQ? cpuOut.toList = none →
      checkServerEvents thr cpuOut memOut diskLines services = [HostEvent.genericErrorAlert])
    ∧ (∀ (memOut : String) (diskLines : List String) (services : List (String × Bool)),
      memOut ≠ "" →
      ((splitWsStr memOut).length < 3
        ∨ parseIntOpt ((splitWsStr memOut).getD 1 "").toList = none
        ∨ parseIntOpt ((splitWsStr memOut).getD 2 "").toList = none
        ∨ parseIntOpt ((splitWsStr memOut).getD 1 "").toList = some 0) →
      afterCpuEvents thr memOut diskLines services = [HostEvent.genericErrorAlert])
    ∧ (∀ (diskLines : List String) (services : List (String × Bool)),
      afterCpuEvents thr "" diskLines services
        = HostEvent.memParseFail ::
          ((diskSectionActions thr.disk diskLines).map HostEvent.diskAct
            ++ serviceEvents services))
    ∧ (∀ (line : String) (m : String),
      processDiskLine thr.disk line = DiskLineResult.parseFail m →
      diskLineContribution thr.disk line = []) := by
  refine ⟨?_, ?_, ?_, ?_, ?_⟩
  · intro memOut diskLines services
    simp [checkServerEvents, cpuStep]
  · intro cpuOut memOut diskLines services hne hparse
    simp only [String.toList] at hparse
    simp [checkServerEvents, cpuStep, hne, hparse]
  · intro memOut diskLines services hne hbad
    have hbad' : (splitWsStr memOut).length < 3
        ∨ parseIntOpt ((splitWsStr memOut)[1]?.getD "").data = none
        ∨ parseIntOpt ((splitWsStr memOut)[2]?.getD "").data = none
        ∨ parseIntOpt ((splitWsStr memOut)[1]?.getD "").data = some 0 := by
      simpa [List.getD, String.toList] using hbad
    by_cases hlen : (splitWsStr memOut).length < 3
    · simp [afterCpuEvents, memStep, hne, hlen]
    · rcases hbad' with hb | hb | hb | hb
      · exact absurd hb hlen
      · simp [afterCpuEvents, memStep, hne, hlen, hb]
      · rcases h1 : parseIntOpt ((splitWsStr memOut)[1]?.getD "").data with _ | total
        · simp [afterCpuEvents, memStep, hne, hlen, h1]
        · simp [afterCpuEvents, memStep, hne, hlen, h1, hb]
      · rcases h2 : parseIntOpt ((splitWsStr memOut)[2]?.getD "").data with _ | used
        · simp [afterCpuEvents, memStep, hne, hlen, h2]
        · simp [afterCpuEvents, memStep, hne, hlen, hb, h2]
  · intro diskLines services
    simp [afterCpuEvents, memStep]
  · intro line m hp
    by_cases hg : grepKeepLine line = true
    · simp [diskLineContribution, hg, hp]
    · simp [diskLineContribution, hg]

theorem c8_amended_parse_failures_witness :
    checkServerEvents ⟨80, 80, 85⟩ "" "Mem: 100 50 10 5 35" [] []
      = HostEvent.cpuParseFail :: afterCpuEvents ⟨80, 80, 85⟩ "Mem: 100 50 10 5 35" [] []
    ∧ checkServerEvents ⟨80, 80, 85⟩ "xyz" "" [] [] = [HostEvent.genericErrorAlert]
    ∧ afterCpuEvents ⟨80, 80, 85⟩ "Mem: abc 50 10 5 35"
        ["/dev/sda1 100G 96G 4G 96% /"] [("nginx", true)] = [HostEvent.genericErrorAlert]
    ∧ afterCpuEvents ⟨80, 80, 85⟩ "" ["/dev/sda1 100G 4G 96G 4% /"] [("nginx", true)]
      = HostEvent.memParseFail ::
        ((diskSectionActions (85:ℚ) ["/dev/sda1 100G 4G 96G 4% /"]).map HostEvent.diskAct
          ++ serviceEvents [("nginx", true)])
    ∧ diskLineContribution (85:ℚ) "/dev/sda1 100G 4G 96G abc% /" = [] :=
  ⟨(c8_amended_parse_failures ⟨80, 80, 85⟩).1 "Mem: 100 50 10 5 35" [] [],
   (c8_amended_parse_failures ⟨80, 80, 85⟩).2.1 "xyz" "" [] [] (by decide) (by decide),
   (c8_amended_parse_failures ⟨80, 80, 85⟩).2.2.1 "Mem: abc 50 10 5 35"
     ["/dev/sda1 100G 96G 4G 96% /"] [("nginx", true)] (by decide)
     (Or.inr (Or.inl (by decide))),
   (c8_amended_parse_failures ⟨80, 80, 85⟩).2.2.2.1 ["/dev/sda1 100G 4G 96G 4% /"]
     [("nginx", true)],
   (c8_amended_parse_failures ⟨80, 80, 85⟩).2.2.2.2 "/dev/sda1 100G 4G 96G abc% /" "/"
     (by decide)⟩

theorem memberChat_append (cid : Int) (l1 l2 : List Subscriber) :
    memberChat cid (l1 ++ l2) = (memberChat cid l1 || memberChat cid l2) := by
  induction l1 with
  | nil => simp [memberChat]
  | cons s t ih => by_cases h : s.chat_id = cid <;> simp [memberChat, h, ih]

theorem memberChat_false_no_entry (cid : Int) (subs : List Subscriber)
    (h : memberChat cid subs = false) : ∀ s ∈ subs, ¬ s.chat_id = cid := by
  induction subs with
  | nil => intro s hs; cases hs
  | cons s0 t ih =>
    intro s hs
    simp only [memberChat, Bool.or_eq_false_iff] at h
    rcases List.mem_cons.mp hs with hs | hs
    · subst hs
      intro hx
      rw [hx] at h
      simpa using h.1
    · exact ih (by simpa using h.2) s hs

/-- Shared helper: a subscribe command from an already-subscribed chat id
is a no-op returning the already-subscribed reply. -/
theorem process_start_already (subs : List Subscriber) (cid : Int)
    (u f : Option String) (now : Int) (text : String)
    (hmem : memberChat cid subs = true)
    (ht : lowerStr text = "/start" ∨ lowerStr text = "/subscribe") :
    process_update subs cid text u f now = (subs, BotReply.alreadySubscribed) := by
  rcases ht with h | h <;> simp [process_update, h, add_subscriber, hmem]

/-- C9: subscribing is idempotent.  A subscribe command for a chat id that
is already in the registry leaves the registry untouched and replies
already-subscribed; after `/start` twice from a fresh chat id the registry
holds exactly one entry for that id, its `subscribed_at` is the timestamp
of the first call, and the second call replied already-subscribed. -/
theorem c9_subscribe_idempotent :
    (∀ (subs : List Subscriber) (cid : Int) (u f : Option String) (now : Int)
        (text : String),
      memberChat cid subs = true →
      (lowerStr text = "/start" ∨ lowerStr text = "/subscribe") →
      process_update subs cid text u f now = (subs, BotReply.alreadySubscribed))
    ∧ (∀ (subs : List Subscriber) (cid : Int) (u1 f1 : Option String) (t1 : Int)
        (u2 f2 : Option String) (t2 : Int),
      memberChat cid subs = false →
      (process_update (process_update subs cid "/start" u1 f1 t1).1 cid "/start" u2 f2 t2).1
        = (process_update subs cid "/start" u1 f1 t1).1
      ∧ (process_update (process_update subs cid "/start" u1 f1 t1).1 cid "/start" u2 f2 t2).2
        = BotReply.alreadySubscribed
      ∧ (process_update subs cid "/start" u1 f1 t1).1.countP
          (fun s => decide (s.chat_id = cid)) = 1
      ∧ ∀ s ∈ (process_update subs cid "/start" u1 f1 t1).1,
          s.chat_id = cid → s.subscribed_at = t1) := by
  have hstart : lowerStr "/start" = "/start" := by decide
  constructor
  · exact process_start_already
  · intro subs cid u1 f1 t1 u2 f2 t2 hmem
    have h1 : (process_update subs cid "/start" u1 f1 t1).1
        = subs ++ [{ chat_id := cid, username := u1, first_name := f1,
                     subscribed_at := t1 }] := by
      simp [process_update, hstart, add_subscriber, hmem]
    have hmem1 : memberChat cid (process_update subs cid "/start" u1 f1 t1).1 = true := by
      rw [h1, memberChat_append, hmem]
      simp [memberChat]
    have h2 := process_start_already (process_update subs cid "/start" u1 f1 t1).1 cid
      u2 f2 t2 "/start" hmem1 (Or.inl hstart)
    refine ⟨by rw [h2], by rw [h2], ?_, ?_⟩
    · rw [h1, List.countP_append]
      have hc0 : subs.countP (fun s => decide (s.chat_id = cid)) = 0 := by
        rw [List.countP_eq_zero]
        intro s hs
        simpa using memberChat_false_no_entry cid subs hmem s hs
      rw [hc0]
      simp [List.countP_cons]
    · rw [h1]
      intro s hs hcid
      rcases List.mem_append.mp hs with hs | hs
      · exact absurd hcid (memberChat_false_no_entry cid subs hmem s hs)
      · simp only [List.mem_singleton] at hs
        rw [hs]

theorem c9_subscribe_idempotent_witness :
    (process_update [] 42 "/start" (some "alice") none 1000).1.countP
      (fun s => decide (s.chat_id = 42)) = 1
    ∧ (process_update (process_update [] 42 "/start" (some "alice") none 1000).1
        42 "/start" (some "alice") none 2000).2 = BotReply.alreadySubscribed
    ∧ (process_update (process_update [] 42 "/start" (some "alice") none 1000).1
        42 "/start" (some "alice") none 2000).1
      = (process_update [] 42 "/start" (some "alice") none 1000).1 :=
  have h := c9_subscribe_idempotent.2 [] 42 (some "alice") none 1000
    (some "alice") none 2000 (by decide)
  ⟨h.2.2.1, h.2.1, h.1⟩

theorem sweep_step_session (cfg : Config) (st : AMState) (op : Op)
    (hop : opFromSweep op = true) (hs : st.session_active = false) :
    (step cfg st op).session_active = false
    ∧ (step cfg st op).session_new_alerts = st.session_new_alerts
    ∧ (step cfg st op).session_recurring_alerts = st.session_recurring_alerts
    ∧ (step cfg st op).session_resolved_alerts = st.session_resolved_alerts := by
  cases op with
  | record n h m a now e t => simp [step, send_alert, hs]
  | resolve n h m cv thr now e t =>
    rcases hl : alLookup (get_alert_id n h (lowerStr m)) st.alert_status.active_alerts
      with _ | alert
    · simp [step, check_alert_resolution, hl, hs]
    · by_cases hcv : cv < thr <;> simp [step, check_alert_resolution, hl, hcv, hs]
  | sessionStart => exact Bool.noConfusion hop
  | sessionEnd now eA tA eR tR => exact Bool.noConfusion hop

/-- C10: a sweep run through `check_all_servers` issues only `send_alert`
and `check_alert_resolution` calls and never `start_session`, so from the
initial `session_active = false` the flag stays false at every point, the
session queues are never touched, and each `send_alert` return value is
exactly the immediate-dispatch outcome (email or Telegram delivery), with
the batcher never engaged. -/
theorem c10_sweep_never_engages_batcher :
    (∀ (cfg : Config) (st : AMState) (ops : List Op),
      st.session_active = false →
      (∀ op ∈ ops, opFromSweep op = true) →
      (runOps cfg st ops).session_active = false
      ∧ (runOps cfg st ops).session_new_alerts = st.session_new_alerts
      ∧ (runOps cfg st ops).session_recurring_alerts = st.session_recurring_alerts
      ∧ (runOps cfg st ops).session_resolved_alerts = st.session_resolved_alerts)
    ∧ (∀ (cfg : Config) (st : AMState) (n h m : String) (a : Option String) (now : Int)
        (e t : Bool),
      st.session_active = false →
      (send_alert cfg st n h m a now e t).returned
        = ((send_alert cfg st n h m a now e t).email_sent
           || (send_alert cfg st n h m a now e t).telegram_sent)) := by
  constructor
  · intro cfg st ops
    induction ops generalizing st with
    | nil => intro hs _; simpa [runOps] using hs
    | cons op rest ih =>
      intro hs hops
      have hstep := sweep_step_session cfg st op (hops op (by simp)) hs
      have h1 : runOps cfg st (op :: rest) = runOps cfg (step cfg st op) rest := by
        simp [runOps]
      rw [h1]
      have hrest := ih (step cfg st op) hstep.1 (fun o ho => hops o (by simp [ho]))
      exact ⟨hrest.1, hrest.2.1.trans hstep.2.1, hrest.2.2.1.trans hstep.2.2.1,
        hrest.2.2.2.trans hstep.2.2.2⟩
  · intro cfg st n h m a now e t hs
    simp [send_alert, hs]

theorem c10_sweep_never_engages_batcher_witness :
    (runOps quietConfig emptyAMState
      [Op.record "web1" "h1" "CPU usage at 95 pct" none 0 true true,
       Op.resolve "web1" "h1" "CPU" 40 80 3600 true true]).session_active = false
    ∧ (runOps quietConfig emptyAMState
        [Op.record "web1" "h1" "CPU usage at 95 pct" none 0 true true,
         Op.resolve "web1" "h1" "CPU" 40 80 3600 true true]).session_new_alerts
      = emptyAMState.session_new_alerts
    ∧ (send_alert fullConfig twoActiveState "web1" "h1" "CPU usage at 95 pct"
        (some "cpu") 7200 true true).returned
      = ((send_alert fullConfig twoActiveState "web1" "h1" "CPU usage at 95 pct"
          (some "cpu") 7200 true true).email_sent
         || (send_alert fullConfig twoActiveState "web1" "h1" "CPU usage at 95 pct"
            (some "cpu") 7200 true true).telegram_sent) :=
  have h := c10_sweep_never_engages_batcher.1 quietConfig emptyAMState
    [Op.record "web1" "h1" "CPU usage at 95 pct" none 0 true true,
     Op.resolve "web1" "h1" "CPU" 40 80 3600 true true] (by decide) (by decide)
  ⟨h.1, h.2.1,
   c10_sweep_never_engages_batcher.2 fullConfig twoActiveState "web1" "h1"
     "CPU usage at 95 pct" (some "cpu") 7200 true true (by decide)⟩

end Heimdall
